import Mathlib

/-!
Shallow embedding of the vscode-mcp-auth-sample server core: the PKCE
store and OAuth authorize/callback handlers (src/oauth.ts), the bearer
token-validation middleware and token cache (src/middleware/auth.ts), and
the session-keyed MCP HTTP transport dispatch (src/mcp/http-transport.ts).
JavaScript `Map` objects become association lists, wall-clock time and all
network I/O (Azure AD token endpoint, Microsoft Graph) become explicit
parameters, and `crypto` primitives (SHA-256, base64url) are implemented
from their standards so the PKCE challenge derivation can be checked.
-/

namespace MCPAuth

/-! ### JavaScript `Map` as an association list

`JsMap.get` finds the first binding, `JsMap.set` replaces an existing
binding in place (preserving insertion order, as JS `Map.set` does) or
appends, `JsMap.delete` removes the binding.  JS maps never hold duplicate
keys, so on reachable states these agree with the JS semantics. -/

namespace JsMap

def get {β : Type} (k : String) : List (String × β) → Option β
  | [] => none
  | (k', v) :: rest => if k' = k then some v else get k rest

def set {β : Type} (k : String) (v : β) : List (String × β) → List (String × β)
  | [] => [(k, v)]
  | (k', v') :: rest => if k' = k then (k, v) :: rest else (k', v') :: set k v rest

def delete {β : Type} (k : String) (m : List (String × β)) : List (String × β) :=
  m.filter fun p => ¬ (p.1 = k)

/-- Lazy sweep used by the stores: keep only entries whose value is alive. -/
def sweepBy {β : Type} (alive : β → Bool) (m : List (String × β)) : List (String × β) :=
  m.filter fun p => alive p.2

end JsMap

/-! ### SHA-256 (FIPS 180-4), over lists of bytes as `Nat` -/

namespace SHA256

/-- Truncate to a 32-bit word. -/
def w32 (n : Nat) : Nat := n % 2 ^ 32

/-- Rotate a 32-bit word right by `n`. -/
def rotr (n x : Nat) : Nat := w32 ((x >>> n) ||| (x <<< (32 - n)))

def shr (n x : Nat) : Nat := x >>> n

/-- Bitwise complement within 32 bits. -/
def compl32 (x : Nat) : Nat := x ^^^ (2 ^ 32 - 1)

def ch (x y z : Nat) : Nat := (x &&& y) ^^^ (compl32 x &&& z)

def maj (x y z : Nat) : Nat := (x &&& y) ^^^ (x &&& z) ^^^ (y &&& z)

def bigSigma0 (x : Nat) : Nat := rotr 2 x ^^^ rotr 13 x ^^^ rotr 22 x

def bigSigma1 (x : Nat) : Nat := rotr 6 x ^^^ rotr 11 x ^^^ rotr 25 x

def smallSigma0 (x : Nat) : Nat := rotr 7 x ^^^ rotr 18 x ^^^ shr 3 x

def smallSigma1 (x : Nat) : Nat := rotr 17 x ^^^ rotr 19 x ^^^ shr 10 x

/-- The 64 round constants of FIPS 180-4 §4.2.2 (the fractional parts of
the cube roots of the first 64 primes), written in decimal. -/
def K : List Nat :=
  [1116352408, 1899447441, 3049323471, 3921009573,
   961987163, 1508970993, 2453635748, 2870763221,
   3624381080, 310598401, 607225278, 1426881987,
   1925078388, 2162078206, 2614888103, 3248222580,
   3835390401, 4022224774, 264347078, 604807628,
   770255983, 1249150122, 1555081692, 1996064986,
   2554220882, 2821834349, 2952996808, 3210313671,
   3336571891, 3584528711, 113926993, 338241895,
   666307205, 773529912, 1294757372, 1396182291,
   1695183700, 1986661051, 2177026350, 2456956037,
   2730485921, 2820302411, 3259730800, 3345764771,
   3516065817, 3600352804, 4094571909, 275423344,
   430227734, 506948616, 659060556, 883997877,
   958139571, 1322822218, 1537002063, 1747873779,
   1955562222, 2024104815, 2227730452, 2361852424,
   2428436474, 2756734187, 3204031479, 3329325298]

/-- Working registers a–h. -/
structure Regs where
  a : Nat
  b : Nat
  c : Nat
  d : Nat
  e : Nat
  f : Nat
  g : Nat
  h : Nat
deriving Repr, DecidableEq

/-- The initial hash value of FIPS 180-4 §5.3.3, in decimal. -/
def initRegs : Regs :=
  ⟨1779033703, 3144134277, 1013904242, 2773480762,
   1359893119, 2600822924, 528734635, 1541459225⟩

/-- One compression round. -/
def round (r : Regs) (ki wi : Nat) : Regs :=
  let t1 := w32 (r.h + bigSigma1 r.e + ch r.e r.f r.g + ki + wi)
  let t2 := w32 (bigSigma0 r.a + maj r.a r.b r.c)
  ⟨w32 (t1 + t2), r.a, r.b, r.c, w32 (r.d + t1), r.e, r.f, r.g⟩

/-- Extend a 16-word block to the 64-word message schedule. -/
def schedule (block : List Nat) : List Nat :=
  let full := (List.range 48).foldl
    (fun (w : Array Nat) i =>
      w.push (w32 (smallSigma1 (w[i + 14]!) + w[i + 9]! + smallSigma0 (w[i + 1]!) + w[i]!)))
    block.toArray
  full.toList

/-- Compress one 16-word block into the running state. -/
def compress (r0 : Regs) (block : List Nat) : Regs :=
  let ws := schedule block
  let r := (K.zip ws).foldl (fun r p => round r p.1 p.2) r0
  ⟨w32 (r0.a + r.a), w32 (r0.b + r.b), w32 (r0.c + r.c), w32 (r0.d + r.d),
   w32 (r0.e + r.e), w32 (r0.f + r.f), w32 (r0.g + r.g), w32 (r0.h + r.h)⟩

/-- The 8-byte big-endian encoding of the message bit length. -/
def lenBytes (bitLen : Nat) : List Nat :=
  (List.range 8).map fun i => bitLen / 2 ^ (8 * (7 - i)) % 256

/-- Pad a byte message to a multiple of 64 bytes. -/
def padBytes (msg : List Nat) : List Nat :=
  let L := msg.length
  let k := (64 + 56 - (L + 1) % 64) % 64
  msg ++ [0x80] ++ List.replicate k 0 ++ lenBytes (8 * L)

/-- Group bytes into big-endian 32-bit words. -/
def bytesToWords : List Nat → List Nat
  | a :: b :: c :: d :: rest => (a * 2 ^ 24 + b * 2 ^ 16 + c * 2 ^ 8 + d) :: bytesToWords rest
  | _ => []

/-- Split a word list into 16-word blocks (inputs here are padded to a
multiple of 16 words). -/
def chunksOf16 : List Nat → List (List Nat)
  | w0 :: w1 :: w2 :: w3 :: w4 :: w5 :: w6 :: w7 ::
    w8 :: w9 :: w10 :: w11 :: w12 :: w13 :: w14 :: w15 :: rest =>
      [w0, w1, w2, w3, w4, w5, w6, w7, w8, w9, w10, w11, w12, w13, w14, w15] :: chunksOf16 rest
  | _ => []

/-- Big-endian bytes of one 32-bit word. -/
def wordBytes (w : Nat) : List Nat :=
  [w / 2 ^ 24 % 256, w / 2 ^ 16 % 256, w / 2 ^ 8 % 256, w % 256]

/-- SHA-256 digest: 32 bytes. -/
def sha256 (msg : List Nat) : List Nat :=
  let r := (chunksOf16 (bytesToWords (padBytes msg))).foldl compress initRegs
  wordBytes r.a ++ wordBytes r.b ++ wordBytes r.c ++ wordBytes r.d ++
  wordBytes r.e ++ wordBytes r.f ++ wordBytes r.g ++ wordBytes r.h

end SHA256

/-! ### base64url (RFC 4648 §5, unpadded — Node's `base64url` encoding) -/

def b64Alphabet : List Char :=
  ("ABCDEFGHIJKLMNOPQRSTUVWXYZabcdefghijklmnopqrstuvwxyz0123456789-_").toList

def b64Char (n : Nat) : Char := b64Alphabet.getD n 'A'

def b64Chars : List Nat → List Char
  | [] => []
  | [a] => [b64Char (a / 4), b64Char (a % 4 * 16)]
  | [a, b] => [b64Char (a / 4), b64Char (a % 4 * 16 + b / 16), b64Char (b % 16 * 4)]
  | a :: b :: c :: rest =>
      b64Char (a / 4) :: b64Char (a % 4 * 16 + b / 16) ::
      b64Char (b % 16 * 4 + c / 64) :: b64Char (c % 64) :: b64Chars rest

def base64urlEncode (bs : List Nat) : String := ⟨b64Chars bs⟩

/-- Byte view of an ASCII string.  The strings hashed by the code
(base64url verifiers) are ASCII, where this agrees with UTF-8, which is
what Node's `hash.update(string)` uses. -/
def asciiBytes (s : String) : List Nat := s.data.map Char.toNat

/-! ### PKCE utility functions (src/oauth.ts) -/

/-- Entry of the `pkceStore` map. -/
structure PkceEntry where
  codeVerifier : String
  expiresAt : Nat
deriving Repr, DecidableEq

abbrev PkceStore := List (String × PkceEntry)

/-- `generateCodeVerifier`: `crypto.randomBytes(32).toString('base64url')`.
The 32 random bytes are an explicit input. -/
def generateCodeVerifier (randomBytes : List Nat) : String :=
  base64urlEncode randomBytes

/-- `generateCodeChallenge`: `BASE64URL(SHA256(ASCII(code_verifier)))`. -/
def generateCodeChallenge (codeVerifier : String) : String :=
  base64urlEncode (SHA256.sha256 (asciiBytes codeVerifier))

/-- Ten minutes in milliseconds: the PKCE entry lifetime. -/
def pkceTTL : Nat := 10 * 60 * 1000

/-- `storeCodeVerifier`: insert under `state` with a fresh expiry, then
sweep entries whose expiry has passed (`Date.now() > value.expiresAt`). -/
def storeCodeVerifier (now : Nat) (state codeVerifier : String) (store : PkceStore) :
    PkceStore :=
  JsMap.sweepBy (fun e => ¬ (now > e.expiresAt)) (JsMap.set state ⟨codeVerifier, now + pkceTTL⟩ store)

/-- `getAndRemoveCodeVerifier`: read-and-delete in one step; absent or
expired entries give `none` (expired entries are also deleted). -/
def getAndRemoveCodeVerifier (now : Nat) (state : String) (store : PkceStore) :
    Option String × PkceStore :=
  match JsMap.get state store with
  | none => (none, store)
  | some entry =>
      if now > entry.expiresAt then (none, JsMap.delete state store)
      else (some entry.codeVerifier, JsMap.delete state store)

/-! ### Server configuration (src/config.ts), as far as the handlers read it -/

structure Config where
  clientId : String
  tenantId : String
  authorizeUrl : String
  tokenUrl : String
  issuer : String
  serverUrl : String
  scopes : List String
deriving Repr

/-- JavaScript truthiness of an optional query/header string:
`undefined` and the empty string are falsy. -/
def truthy : Option String → Bool
  | none => false
  | some s => s ≠ ""

/-- JavaScript `a || b` on an optional string: `b` when `a` is absent or empty. -/
def orDefault (o : Option String) (d : String) : String :=
  match o with
  | none => d
  | some s => if s = "" then d else s

/-! ### Token cache and Graph-API token validation (src/middleware/auth.ts) -/

/-- Identity resolved from the Graph `/me` endpoint. -/
structure GraphUserInfo where
  id : String
  displayName : String
  mail : String
  userPrincipalName : String
deriving Repr, DecidableEq

/-- Raw `/me` response data; `mail` may be null. -/
structure GraphProfile where
  id : String
  displayName : String
  mail : Option String
  userPrincipalName : String
deriving Repr, DecidableEq

structure TokenCacheEntry where
  user : GraphUserInfo
  validUntil : Nat
deriving Repr, DecidableEq

abbrev TokenCache := List (String × TokenCacheEntry)

/-- Outcome of the axios GET to `https://graph.microsoft.com/v1.0/me`,
made an explicit input of the embedding. -/
inductive GraphOutcome where
  | ok (profile : GraphProfile)
  /-- axios error with an HTTP response attached (4xx/5xx). -/
  | httpError (status : Nat) (statusText : String)
  /-- axios error with no response (timeout, transport failure):
  `error.response?.status` and `statusText` interpolate as `undefined`. -/
  | noResponse
  /-- a non-axios exception, rethrown as-is. -/
  | thrown (msg : String)
deriving Repr, DecidableEq

/-- Five minutes in milliseconds: the token-cache entry lifetime. -/
def tokenCacheTTL : Nat := 5 * 60 * 1000

/-- The user built from a profile: `mail: data.mail || data.userPrincipalName`. -/
def mkGraphUser (p : GraphProfile) : GraphUserInfo :=
  ⟨p.id, p.displayName, orDefault p.mail p.userPrincipalName, p.userPrincipalName⟩

/-- `validateTokenViaGraphAPI`: serve a fresh cache entry without any
outbound call; otherwise call Graph (third component `true`), caching only
the success result.  A Graph 401 maps to "Token is invalid or expired",
any other axios failure to a distinct "Graph API validation failed" message. -/
def validateTokenViaGraphAPI (now : Nat) (token : String) (cache : TokenCache)
    (net : GraphOutcome) : Except String GraphUserInfo × TokenCache × Bool :=
  let call : Except String GraphUserInfo × TokenCache × Bool :=
    match net with
    | .ok p =>
        let user := mkGraphUser p
        (.ok user, JsMap.set token ⟨user, now + tokenCacheTTL⟩ cache, true)
    | .httpError status statusText =>
        if status = 401 then (.error ("Token is invalid or expired"), cache, true)
        else
          (.error ("Graph API validation failed: " ++ (toString status ++ " " ++ statusText)),
           cache, true)
    | .noResponse => (.error ("Graph API validation failed: undefined undefined"), cache, true)
    | .thrown msg => (.error msg, cache, true)
  match JsMap.get token cache with
  | some entry => if entry.validUntil > now then (.ok entry.user, cache, false) else call
  | none => call

/-! ### Structural JWT validation (src/middleware/auth.ts) -/

/-- Result of `jwt.decode(token, \x7b complete: true \x7d)`, an explicit input:
either not a decodable JWT, or a payload with optional `iss`/`exp` claims. -/
inductive DecodeOutcome where
  | invalid
  | decoded (iss : Option String) (exp : Option Nat)
deriving Repr, DecidableEq

/-- The validated claims kept on the request. -/
structure JwtInfo where
  iss : Option String
  exp : Option Nat
deriving Repr, DecidableEq

def validIssuers (cfg : Config) : List String :=
  [cfg.issuer, "https://login.microsoftonline.com/" ++ cfg.tenantId ++ "/v2.0"]

/-- `validateTokenStructure`: issuer must be one of the two configured
issuers; a nonzero `exp` in the past (seconds) is rejected. -/
def validateTokenStructure (cfg : Config) (dec : DecodeOutcome) (nowSec : Nat) :
    Except String JwtInfo :=
  match dec with
  | .invalid => .error ("Invalid token structure")
  | .decoded iss exp =>
      match iss with
      | none => .error ("Invalid issuer: undefined")
      | some i =>
          if ¬ (validIssuers cfg).contains i then .error ("Invalid issuer: " ++ i)
          else
            match exp with
            | some e =>
                if e ≠ 0 ∧ e < nowSec then .error ("Token has expired")
                else .ok ⟨some i, some e⟩
            | none => .ok ⟨some i, none⟩

/-! ### requireAuth / optionalAuth middleware (src/middleware/auth.ts) -/

/-- The JSON body and headers of the 401 built by `sendUnauthorized`. -/
structure AuthResponse where
  status : Nat
  wwwAuthenticate : String
  bodyError : String
  bodyMessage : String
  bodyAuthorizationUri : String
deriving Repr, DecidableEq

def sendUnauthorized (cfg : Config) (error : String) : AuthResponse :=
  { status := 401
    wwwAuthenticate :=
      "Bearer realm=\"" ++ cfg.serverUrl ++ "\", authorization_uri=\"" ++ cfg.authorizeUrl ++
      "\", error=\"invalid_token\", error_description=\"" ++ error ++ "\""
    bodyError := "unauthorized"
    bodyMessage := error
    bodyAuthorizationUri := cfg.serverUrl ++ "/authorize" }

/-- The identity `requireAuth` attaches to the request on success. -/
structure AttachedUser where
  jwt : JwtInfo
  graph : GraphUserInfo
deriving Repr, DecidableEq

/-- What a gate middleware did with the request: called `next()` after
attaching the user, or wrote a 401 (so the protected handler never runs). -/
inductive GateResult where
  | allow (user : AttachedUser)
  | deny (resp : AuthResponse)
deriving Repr, DecidableEq

/-- `requireAuth`: header checks, then structural validation, then Graph
introspection; every failure path is a 401 via `sendUnauthorized`. -/
def requireAuth (cfg : Config) (authHeader : Option String) (dec : DecodeOutcome)
    (nowSec nowMs : Nat) (cache : TokenCache) (net : GraphOutcome) :
    GateResult × TokenCache :=
  match authHeader with
  | none => (.deny (sendUnauthorized cfg ("No Authorization header provided")), cache)
  | some h =>
      if h = "" then (.deny (sendUnauthorized cfg ("No Authorization header provided")), cache)
      else if ¬ h.startsWith ("Bearer ") then
        (.deny (sendUnauthorized cfg
          ("Invalid Authorization header format. Expected \"Bearer <token>\"")), cache)
      else
        let token := h.drop 7
        if token = "" then (.deny (sendUnauthorized cfg ("No token provided")), cache)
        else
          match validateTokenStructure cfg dec nowSec with
          | .error msg => (.deny (sendUnauthorized cfg msg), cache)
          | .ok jwtInfo =>
              match validateTokenViaGraphAPI nowMs token cache net with
              | (.ok user, cache', _) => (.allow ⟨jwtInfo, user⟩, cache')
              | (.error msg, cache', _) => (.deny (sendUnauthorized cfg msg), cache')

/-- What a middleware did: called `next()` (with an optionally attached
user) or wrote a response itself. -/
inductive MwResult where
  | next (user : Option AttachedUser)
  | respond (resp : AuthResponse)
deriving Repr, DecidableEq

/-- `optionalAuth`: missing or non-Bearer header, or any validation
failure, still calls `next()`; a user is attached only on full success. -/
def optionalAuth (cfg : Config) (authHeader : Option String) (dec : DecodeOutcome)
    (nowSec nowMs : Nat) (cache : TokenCache) (net : GraphOutcome) :
    MwResult × TokenCache :=
  match authHeader with
  | none => (.next none, cache)
  | some h =>
      if h = "" then (.next none, cache)
      else if ¬ h.startsWith ("Bearer ") then (.next none, cache)
      else
        let token := h.drop 7
        match validateTokenStructure cfg dec nowSec with
        | .error _ => (.next none, cache)
        | .ok jwtInfo =>
            match validateTokenViaGraphAPI nowMs token cache net with
            | (.ok user, cache', _) => (.next (some ⟨jwtInfo, user⟩), cache')
            | (.error _, cache', _) => (.next none, cache')

/-! ### OAuth /authorize handler (src/oauth.ts) -/

/-- Query parameters of `GET /authorize`. -/
structure AuthorizeQuery where
  scope : Option String
  state : Option String
  code_challenge : Option String
  code_challenge_method : Option String
  redirect_uri : Option String
deriving Repr

/-- The parameters appended to the Azure authorize URL. -/
structure AuthorizeRedirect where
  clientId : String
  responseType : String
  redirectUri : String
  scope : String
  state : String
  codeChallenge : String
  codeChallengeMethod : String
  responseMode : String
deriving Repr, DecidableEq

def joinSpace : List String → String
  | [] => ""
  | [s] => s
  | s :: rest => s ++ " " ++ joinSpace rest

/-- `GET /authorize`: pass client PKCE parameters through untouched, or
mint a server-side verifier/challenge pair and remember the verifier
under the state value.  `randState` models `crypto.randomBytes(16)`,
`randVerifier` the 32 verifier bytes. -/
def handleAuthorize (cfg : Config) (q : AuthorizeQuery) (randState : List Nat)
    (randVerifier : List Nat) (now : Nat) (store : PkceStore) :
    AuthorizeRedirect × PkceStore :=
  let redirectUri := orDefault q.redirect_uri (cfg.serverUrl ++ "/callback")
  let requestedScope := orDefault q.scope (joinSpace cfg.scopes)
  let stateParam := orDefault q.state (base64urlEncode randState)
  if truthy q.code_challenge ∧ truthy q.code_challenge_method then
    ({ clientId := cfg.clientId, responseType := "code", redirectUri := redirectUri,
       scope := requestedScope, state := stateParam,
       codeChallenge := (q.code_challenge).getD (""),
       codeChallengeMethod := (q.code_challenge_method).getD (""),
       responseMode := "query" }, store)
  else
    let codeVerifier := generateCodeVerifier randVerifier
    ({ clientId := cfg.clientId, responseType := "code", redirectUri := redirectUri,
       scope := requestedScope, state := stateParam,
       codeChallenge := generateCodeChallenge codeVerifier,
       codeChallengeMethod := "S256",
       responseMode := "query" }, storeCodeVerifier now stateParam codeVerifier store)

/-! ### OAuth /callback handler (src/oauth.ts) -/

/-- Entry of the `tokenStore` map (Access Token Record). -/
structure TokenRecord where
  accessToken : String
  expiresAt : Nat
deriving Repr, DecidableEq

abbrev TokenStore := List (String × TokenRecord)

/-- Query parameters of `GET /callback`. -/
structure CallbackQuery where
  code : Option String
  state : Option String
  error : Option String
  error_description : Option String
  code_verifier : Option String
  redirect_uri : Option String
deriving Repr

/-- Outcome of the axios POST to the Azure token endpoint; `access_token`
may be missing from the response body. -/
inductive ExchangeOutcome where
  | success (access_token : Option String) (expires_in : Nat)
  | failure (msg : String)
deriving Repr, DecidableEq

/-- The page the callback handler renders. -/
inductive CallbackResult where
  /-- the authority redirected back with `error`: 400. -/
  | authErrorPage (error description : String)
  /-- `Missing authorization code`: 400. -/
  | missingCodePage
  /-- `Missing state parameter (required for PKCE)`: 400. -/
  | missingStatePage
  /-- `PKCE verification failed`: 400. -/
  | pkceFailPage
  /-- token exchange threw or returned no token: 500. -/
  | exchangeFailPage (msg : String)
  /-- authentication successful: 200, page shows the session id. -/
  | successPage (sessionId : String)
deriving Repr, DecidableEq

def CallbackResult.status : CallbackResult → Nat
  | .authErrorPage _ _ => 400
  | .missingCodePage => 400
  | .missingStatePage => 400
  | .pkceFailPage => 400
  | .exchangeFailPage _ => 500
  | .successPage _ => 200

/-- Everything observable about one `GET /callback` run. -/
structure CallbackEffects where
  result : CallbackResult
  pkce : PkceStore
  tokens : TokenStore
  exchangeAttempted : Bool

/-- Did the exchange yield a truthy `access_token`? -/
def exchangeSucceeded : ExchangeOutcome → Bool
  | .success tok _ => truthy tok
  | .failure _ => false

/-- The `finalCodeVerifier` resolution step of the callback: a truthy
client-supplied `code_verifier` is used as-is (no store access),
otherwise the server-stored verifier is redeemed; `!finalCodeVerifier`
then fails the request. -/
def resolveVerifier (now : Nat) (q : CallbackQuery) (pkce : PkceStore) :
    Option String × PkceStore :=
  if truthy q.code_verifier then (q.code_verifier, pkce)
  else getAndRemoveCodeVerifier now ((q.state).getD ("")) pkce

/-- `GET /callback`.  `newSessionId` models the random session id and
`exch` the token-endpoint round trip (consulted only when reached). -/
def handleCallback (q : CallbackQuery) (now : Nat) (newSessionId : String)
    (exch : ExchangeOutcome) (pkce : PkceStore) (tokens : TokenStore) :
    CallbackEffects :=
  if truthy q.error then
    { result := .authErrorPage ((q.error).getD (""))
        (orDefault q.error_description ("No description provided")),
      pkce := pkce, tokens := tokens, exchangeAttempted := false }
  else if ¬ truthy q.code then
    { result := .missingCodePage, pkce := pkce, tokens := tokens, exchangeAttempted := false }
  else if ¬ truthy q.state then
    { result := .missingStatePage, pkce := pkce, tokens := tokens, exchangeAttempted := false }
  else
    let rv := resolveVerifier now q pkce
    if truthy rv.1 then
      match exch with
      | .failure msg =>
          { result := .exchangeFailPage msg, pkce := rv.2, tokens := tokens,
            exchangeAttempted := true }
      | .success tok expiresIn =>
          if truthy tok then
            { result := .successPage newSessionId, pkce := rv.2,
              tokens := JsMap.set newSessionId ⟨(tok).getD (""), now + expiresIn * 1000⟩ tokens,
              exchangeAttempted := true }
          else
            { result := .exchangeFailPage ("No access token received from authorization server"),
              pkce := rv.2, tokens := tokens, exchangeAttempted := true }
    else
      { result := .pkceFailPage, pkce := rv.2, tokens := tokens, exchangeAttempted := false }

/-! ### MCP HTTP transport (src/mcp/http-transport.ts) -/

/-- The JSON-RPC body of a POST: its `method` field, and whether it parses
against the SDK's initialize-request schema (which requires
`method = "initialize"` plus well-formed params). -/
structure McpBody where
  method : Option String
  initShapeOk : Bool
deriving Repr

/-- The SDK's `isInitializeRequest`: an initialize-shaped message, which in
particular has `method = "initialize"`. -/
def isInitializeRequest (b : McpBody) : Bool :=
  b.method == some ("initialize") && b.initShapeOk

/-- What `mcpAuthMiddleware` decides before the transport sees the body. -/
inductive MwDecision where
  | next
  | delegateRequireAuth
deriving Repr, DecidableEq

/-- `mcpAuthMiddleware`: initialize bypasses auth, `tools/call` and
`tools/list` delegate to `requireAuth`, everything else passes through.
The decision reads only the body, never the Authorization header. -/
def mcpAuthMiddleware (b : McpBody) : MwDecision :=
  if isInitializeRequest b then .next
  else
    match b.method with
    | some m => if m = "tools/call" ∨ m = "tools/list" then .delegateRequireAuth else .next
    | none => .next

/-- The MCP auth middleware composed with `requireAuth`: what reaches the
transport handler, for a given Authorization header and validation
environment. -/
def mcpGate (cfg : Config) (b : McpBody) (authHeader : Option String)
    (dec : DecodeOutcome) (nowSec nowMs : Nat) (cache : TokenCache)
    (net : GraphOutcome) : MwResult × TokenCache :=
  match mcpAuthMiddleware b with
  | .next => (.next none, cache)
  | .delegateRequireAuth =>
      match requireAuth cfg authHeader dec nowSec nowMs cache net with
      | (.allow u, cache') => (.next (some u), cache')
      | (.deny r, cache') => (.respond r, cache')

/-- The transport registry: the set of session ids with a live transport
(`transports` record).  Creation also wires `onsessioninitialized`, which
registers the new id. -/
abbrev Registry := List String

/-- What `handleMCPPost` did. -/
inductive PostResult where
  /-- dispatched to the existing transport for this session. -/
  | handledExisting (sessionId : String)
  /-- created, registered and dispatched to a new transport. -/
  | handledNew (sessionId : String)
  /-- JSON-RPC error response, no transport touched. -/
  | clientError (status : Nat) (jsonRpcCode : Int)
deriving Repr, DecidableEq

/-- `handleMCPPost`: reuse a known session, create one only for an
initialize request with no session header, otherwise 400 / -32000. -/
def handleMCPPost (sessionHeader : Option String) (b : McpBody) (newSid : String)
    (reg : Registry) : PostResult × Registry :=
  let sid := (sessionHeader).getD ("")
  if truthy sessionHeader ∧ List.contains reg sid then
    (.handledExisting sid, reg)
  else if ¬ truthy sessionHeader ∧ isInitializeRequest b then
    (.handledNew newSid, newSid :: reg)
  else
    (.clientError 400 (-32000), reg)

/-- A concrete configuration used to instantiate theorems. -/
def sampleConfig : Config :=
  { clientId := "client-123", tenantId := "tenant-456"
    authorizeUrl := "https://login.microsoftonline.com/tenant-456/oauth2/v2.0/authorize"
    tokenUrl := "https://login.microsoftonline.com/tenant-456/oauth2/v2.0/token"
    issuer := "https://sts.windows.net/tenant-456/"
    serverUrl := "http://localhost:3000"
    scopes := ["User.Read", "openid"] }

/-! ## Lemmas about the map model -/

theorem JsMap.get_set_self {β : Type} (k : String) (v : β) (m : List (String × β)) :
    JsMap.get k (JsMap.set k v m) = some v := by
  induction m with
  | nil => simp [JsMap.set, JsMap.get]
  | cons p rest ih =>
      obtain ⟨k', v'⟩ := p
      by_cases h : k' = k
      · simp [JsMap.set, JsMap.get, h]
      · simp [JsMap.set, JsMap.get, h, ih]

theorem JsMap.get_delete_self {β : Type} (k : String) (m : List (String × β)) :
    JsMap.get k (JsMap.delete k m) = none := by
  induction m with
  | nil => simp [JsMap.delete, JsMap.get]
  | cons p rest ih =>
      obtain ⟨k', v'⟩ := p
      by_cases h : k' = k
      · simpa [JsMap.delete, h] using ih
      · simpa [JsMap.delete, JsMap.get, h] using ih

theorem JsMap.get_sweepBy_set {β : Type} (alive : β → Bool) (k : String) (v : β)
    (m : List (String × β)) (hv : alive v = true) :
    JsMap.get k (JsMap.sweepBy alive (JsMap.set k v m)) = some v := by
  induction m with
  | nil => simp [JsMap.set, JsMap.sweepBy, JsMap.get, hv]
  | cons p rest ih =>
      obtain ⟨k', v'⟩ := p
      by_cases h : k' = k
      · simp [JsMap.set, JsMap.sweepBy, JsMap.get, h, hv]
      · by_cases ha : alive v' = true
        · simpa [JsMap.set, JsMap.sweepBy, JsMap.get, h, ha] using ih
        · simpa [JsMap.set, JsMap.sweepBy, JsMap.get, h, ha] using ih

/-! ## Lemmas validating the hash and encoding embeddings -/

/-- FIPS 180-4 test vector: the digest of the empty message. -/
theorem sha256_empty_vector :
    SHA256.sha256 [] =
      [0xe3, 0xb0, 0xc4, 0x42, 0x98, 0xfc, 0x1c, 0x14, 0x9a, 0xfb, 0xf4, 0xc8,
       0x99, 0x6f, 0xb9, 0x24, 0x27, 0xae, 0x41, 0xe4, 0x64, 0x9b, 0x93, 0x4c,
       0xa4, 0x95, 0x99, 0x1b, 0x78, 0x52, 0xb8, 0x55] := by decide

/-- FIPS 180-4 test vector: the digest of "abc". -/
theorem sha256_abc_vector :
    SHA256.sha256 [0x61, 0x62, 0x63] =
      [0xba, 0x78, 0x16, 0xbf, 0x8f, 0x01, 0xcf, 0xea, 0x41, 0x41, 0x40, 0xde,
       0x5d, 0xae, 0x22, 0x23, 0xb0, 0x03, 0x61, 0xa3, 0x96, 0x17, 0x7a, 0x9c,
       0xb4, 0x10, 0xff, 0x61, 0xf2, 0x00, 0x15, 0xad] := by decide

/-- RFC 4648 vector, unpadded: base64url of "hello". -/
theorem base64url_hello_vector :
    base64urlEncode [104, 101, 108, 108, 111] = "aGVsbG8" := by decide

/-- The digest always has 32 bytes. -/
theorem sha256_length (msg : List Nat) : (SHA256.sha256 msg).length = 32 := by
  simp [SHA256.sha256, SHA256.wordBytes]

/-- Unpadded base64url output length: 4 characters per 3-byte group, plus
2 or 3 characters for a 1- or 2-byte remainder. -/
theorem b64Chars_length : (l : List Nat) →
    (b64Chars l).length = 4 * (l.length / 3) + (if l.length % 3 = 0 then 0 else l.length % 3 + 1)
  | [] => by simp [b64Chars]
  | [a] => by simp [b64Chars]
  | [a, b] => by simp [b64Chars]
  | a :: b :: c :: rest => by
      have ih := b64Chars_length rest
      simp only [b64Chars, List.length_cons, ih]
      split_ifs <;> omega

theorem base64urlEncode_length (l : List Nat) :
    (base64urlEncode l).length =
      4 * (l.length / 3) + (if l.length % 3 = 0 then 0 else l.length % 3 + 1) :=
  b64Chars_length l

/-- The upstream-failure message can never collide with the invalid-token
message: the fixed prefix is already longer than the whole other string. -/
theorem graphFail_ne_invalid (x : String) :
    ("Graph API validation failed: " ++ x) ≠ "Token is invalid or expired" := by
  intro h
  have hl := congrArg String.length h
  rw [String.length_append] at hl
  have h1 : (("Graph API validation failed: ") : String).length = 29 := rfl
  have h2 : (("Token is invalid or expired") : String).length = 27 := rfl
  omega

/-! ## Claim theorems -/

/-- C1: redeeming the stored PKCE verifier is one-time.  After
`storeCodeVerifier`, a first `getAndRemoveCodeVerifier` within the TTL
returns the stored verifier and deletes the entry in the same step, so any
second call for the same flow id returns not-found; an absent entry and an
expired entry are both treated as not-found (the expired one is deleted). -/
theorem pkce_redeem_one_time (s₀ s : PkceStore) (t₀ t₁ t₃ : Nat)
    (state v : String) (e : PkceEntry) (hfresh : t₁ ≤ t₀ + pkceTTL) :
    ((getAndRemoveCodeVerifier t₁ state (storeCodeVerifier t₀ state v s₀)).1 = some v ∧
      JsMap.get state (getAndRemoveCodeVerifier t₁ state (storeCodeVerifier t₀ state v s₀)).2
        = none ∧
      ∀ t₂, (getAndRemoveCodeVerifier t₂ state
        (getAndRemoveCodeVerifier t₁ state (storeCodeVerifier t₀ state v s₀)).2).1 = none) ∧
    (JsMap.get state s = none → getAndRemoveCodeVerifier t₃ state s = (none, s)) ∧
    (JsMap.get state s = some e → t₃ > e.expiresAt →
      (getAndRemoveCodeVerifier t₃ state s).1 = none) := by
  have hget : JsMap.get state (storeCodeVerifier t₀ state v s₀)
      = some ⟨v, t₀ + pkceTTL⟩ := by
    apply JsMap.get_sweepBy_set
    simp
  have hnotexp : ¬ t₁ > t₀ + pkceTTL := by omega
  refine ⟨⟨?_, ?_, ?_⟩, ?_, ?_⟩
  · simp [getAndRemoveCodeVerifier, hget, hnotexp]
  · simp [getAndRemoveCodeVerifier, hget, hnotexp, JsMap.get_delete_self]
  · intro t₂
    have h2 : JsMap.get state
        (getAndRemoveCodeVerifier t₁ state (storeCodeVerifier t₀ state v s₀)).2 = none := by
      simp [getAndRemoveCodeVerifier, hget, hnotexp, JsMap.get_delete_self]
    revert h2
    generalize (getAndRemoveCodeVerifier t₁ state (storeCodeVerifier t₀ state v s₀)).2 = s₁
    intro h2
    simp [getAndRemoveCodeVerifier, h2]
  · intro h
    simp [getAndRemoveCodeVerifier, h]
  · intro h hexp
    simp [getAndRemoveCodeVerifier, h, hexp]

/-- Witness for C1 at a concrete flow: store at time 0, redeem at time
1000 yields the verifier; redeeming an absent flow id yields not-found. -/
theorem pkce_redeem_one_time_witness :
    (getAndRemoveCodeVerifier 1000 ("abc")
        (storeCodeVerifier 0 ("abc") ("ver-xyz") [])).1 = some ("ver-xyz") ∧
    getAndRemoveCodeVerifier 5 ("ghost") [] = (none, []) := by
  constructor
  · exact (pkce_redeem_one_time [] [] 0 1000 5 ("abc") ("ver-xyz") ⟨"", 0⟩ (by decide)).1.1
  · exact (pkce_redeem_one_time [] [] 0 1000 5 ("ghost") ("ver-xyz") ⟨"", 0⟩
      (by decide)).2.1 (by decide)

/-- C2: a request with no Authorization header is denied by `requireAuth`
with a 401 whose `WWW-Authenticate` bearer challenge names the realm (the
server URL) and the authorization endpoint, and the protected handler is
never invoked. -/
theorem requireAuth_missing_header_401 (cfg : Config) (dec : DecodeOutcome)
    (nowSec nowMs : Nat) (cache : TokenCache) (net : GraphOutcome) :
    requireAuth cfg none dec nowSec nowMs cache net
      = (.deny (sendUnauthorized cfg ("No Authorization header provided")), cache) ∧
    (sendUnauthorized cfg ("No Authorization header provided")).status = 401 ∧
    (sendUnauthorized cfg ("No Authorization header provided")).wwwAuthenticate
      = "Bearer realm=\"" ++ cfg.serverUrl ++ "\", authorization_uri=\"" ++ cfg.authorizeUrl ++
        "\", error=\"invalid_token\", error_description=\"" ++
        "No Authorization header provided" ++ "\"" ∧
    ∀ u, (requireAuth cfg none dec nowSec nowMs cache net).1 ≠ .allow u := by
  refine ⟨rfl, rfl, rfl, ?_⟩
  intro u h
  simp [requireAuth] at h

/-- Witness for C2 at the sample configuration. -/
theorem requireAuth_missing_header_401_witness :
    requireAuth sampleConfig none .invalid 0 0 [] .noResponse
      = (.deny (sendUnauthorized sampleConfig ("No Authorization header provided")), []) :=
  (requireAuth_missing_header_401 sampleConfig .invalid 0 0 [] .noResponse).1

/-- C8: the PKCE pair generated server-side satisfies
`challenge = base64url(SHA256(verifier))`, and the verifier is the
base64url encoding of the 32 random bytes — hence 43 characters, as is
the challenge (base64url of the 32-byte digest). -/
theorem pkce_challenge_is_b64url_sha256 (randomBytes : List Nat)
    (h32 : randomBytes.length = 32) :
    generateCodeChallenge (generateCodeVerifier randomBytes)
      = base64urlEncode (SHA256.sha256 (asciiBytes (generateCodeVerifier randomBytes))) ∧
    generateCodeVerifier randomBytes = base64urlEncode randomBytes ∧
    (generateCodeVerifier randomBytes).length = 43 ∧
    (generateCodeChallenge (generateCodeVerifier randomBytes)).length = 43 := by
  refine ⟨rfl, rfl, ?_, ?_⟩
  · show (base64urlEncode randomBytes).length = 43
    rw [base64urlEncode_length, h32]
    decide
  · show (base64urlEncode (SHA256.sha256 (asciiBytes (base64urlEncode randomBytes)))).length = 43
    rw [base64urlEncode_length, sha256_length]
    decide

/-- Witness for C8 on a concrete 32-byte input. -/
theorem pkce_challenge_is_b64url_sha256_witness :
    generateCodeChallenge (generateCodeVerifier (List.replicate 32 7))
      = base64urlEncode (SHA256.sha256 (asciiBytes (generateCodeVerifier (List.replicate 32 7)))) ∧
    (generateCodeVerifier (List.replicate 32 7)).length = 43 :=
  have h := pkce_challenge_is_b64url_sha256 (List.replicate 32 7) (by decide)
  ⟨h.1, h.2.2.1⟩

/-- C9: when the client supplies both PKCE parameters (non-empty, i.e.
truthy), `/authorize` passes them through to the redirect unchanged and
leaves the PKCE store exactly as it was. -/
theorem authorize_passthrough_no_store_write (cfg : Config) (q : AuthorizeQuery)
    (randState randVerifier : List Nat) (now : Nat) (store : PkceStore)
    (c m : String) (hc : q.code_challenge = some c) (hm : q.code_challenge_method = some m)
    (hc0 : c ≠ "") (hm0 : m ≠ "") :
    (handleAuthorize cfg q randState randVerifier now store).1.codeChallenge = c ∧
    (handleAuthorize cfg q randState randVerifier now store).1.codeChallengeMethod = m ∧
    (handleAuthorize cfg q randState randVerifier now store).2 = store := by
  simp [handleAuthorize, truthy, hc, hm, hc0, hm0]

/-- Witness for C9: a concrete pass-through request writes nothing. -/
theorem authorize_passthrough_witness :
    (handleAuthorize sampleConfig
        ⟨none, some ("st"), some ("chal"), some ("S256"), none⟩ [] [] 0 []).2 = [] :=
  (authorize_passthrough_no_store_write sampleConfig
    ⟨none, some ("st"), some ("chal"), some ("S256"), none⟩ [] [] 0 []
    ("chal") ("S256") rfl rfl (by decide) (by decide)).2.2

/-- C3: a POST carrying a session id that is not in the transport
registry, or no (truthy) session id while not being an initialize
message, gets the 400 / -32000 JSON-RPC error and leaves the registry
unchanged — no transport is created. -/
theorem mcp_post_rejects_unknown_or_uninitialized (reg : Registry) (b : McpBody)
    (sessionHeader : Option String) (newSid : String)
    (h : (∃ s, sessionHeader = some s ∧ s ≠ "" ∧ List.contains reg s = false) ∨
         (truthy sessionHeader = false ∧ isInitializeRequest b = false)) :
    handleMCPPost sessionHeader b newSid reg = (.clientError 400 (-32000), reg) := by
  rcases h with ⟨s, hs, hne, hmem⟩ | ⟨hsid, hinit⟩
  · subst hs
    have hm' : s ∉ reg := by simpa using hmem
    simp [handleMCPPost, truthy, hne, hm']
  · simp [handleMCPPost, hsid, hinit]

/-- Witness for C3: an unknown session id is rejected even on an
initialize-shaped body, and a sessionless `tools/call` is rejected. -/
theorem mcp_post_rejects_witness :
    handleMCPPost (some ("sess-1")) ⟨some ("initialize"), true⟩ ("new-id") []
      = (.clientError 400 (-32000), []) ∧
    handleMCPPost none ⟨some ("tools/call"), false⟩ ("new-id") [("live-sess")]
      = (.clientError 400 (-32000), [("live-sess")]) := by
  constructor
  · exact mcp_post_rejects_unknown_or_uninitialized [] ⟨some ("initialize"), true⟩
      (some ("sess-1")) ("new-id") (Or.inl ⟨"sess-1", rfl, by decide, by decide⟩)
  · exact mcp_post_rejects_unknown_or_uninitialized [("live-sess")]
      ⟨some ("tools/call"), false⟩ none ("new-id") (Or.inr ⟨rfl, by decide⟩)

/-- C4: the MCP auth middleware gates selectively — an initialize body
passes the composed gate untouched for every Authorization header
(including none), `tools/call` and `tools/list` delegate to `requireAuth`,
and any other method passes through ungated. -/
theorem mcp_gate_selective (cfg : Config) (b : McpBody) (authHeader : Option String)
    (dec : DecodeOutcome) (nowSec nowMs : Nat) (cache : TokenCache) (net : GraphOutcome) :
    (isInitializeRequest b = true →
      mcpGate cfg b authHeader dec nowSec nowMs cache net = (.next none, cache)) ∧
    (b.method = some ("tools/call") ∨ b.method = some ("tools/list") →
      mcpAuthMiddleware b = .delegateRequireAuth) ∧
    (isInitializeRequest b = false →
      b.method ≠ some ("tools/call") → b.method ≠ some ("tools/list") →
      mcpAuthMiddleware b = .next) := by
  refine ⟨?_, ?_, ?_⟩
  · intro h
    simp [mcpGate, mcpAuthMiddleware, h]
  · intro h
    have hni : isInitializeRequest b = false := by
      rcases h with h | h <;> simp [isInitializeRequest, h]
    rcases h with h | h <;> simp [mcpAuthMiddleware, hni, h]
  · intro h1 h2 h3
    cases hm : b.method with
    | none => simp [mcpAuthMiddleware, h1, hm]
    | some m =>
        have hnc : ¬ (m = "tools/call" ∨ m = "tools/list") := by
          rintro (rfl | rfl)
          · exact h2 hm
          · exact h3 hm
        simp [mcpAuthMiddleware, h1, hm, hnc]

/-- Witness for C4: initialize with no header passes, `tools/call`
delegates, `ping` passes through. -/
theorem mcp_gate_selective_witness :
    mcpGate sampleConfig ⟨some ("initialize"), true⟩ none .invalid 0 0 [] .noResponse
      = (.next none, []) ∧
    mcpAuthMiddleware ⟨some ("tools/call"), false⟩ = .delegateRequireAuth ∧
    mcpAuthMiddleware ⟨some ("ping"), false⟩ = .next := by
  refine ⟨?_, ?_, ?_⟩
  · exact (mcp_gate_selective sampleConfig ⟨some ("initialize"), true⟩ none .invalid 0 0 []
      .noResponse).1 (by decide)
  · exact (mcp_gate_selective sampleConfig ⟨some ("tools/call"), false⟩ none .invalid 0 0 []
      .noResponse).2.1 (Or.inl rfl)
  · exact (mcp_gate_selective sampleConfig ⟨some ("ping"), false⟩ none .invalid 0 0 []
      .noResponse).2.2 (by decide) (by decide) (by decide)

/-- C5: a non-401 failure of the Graph call (5xx, or a timeout/transport
failure with no response) rejects with the distinct
"Graph API validation failed" reason, never the invalid-token message,
and caches nothing; exactly the 401 outcome yields
"Token is invalid or expired" (also uncached). -/
theorem upstream_failure_distinct (now : Nat) (token : String) (cache : TokenCache)
    (hmiss : JsMap.get token cache = none) :
    (∀ status statusText, status ≠ 401 →
        validateTokenViaGraphAPI now token cache (.httpError status statusText)
          = (.error ("Graph API validation failed: " ++
              (toString status ++ " " ++ statusText)), cache, true) ∧
        ("Graph API validation failed: " ++ (toString status ++ " " ++ statusText))
          ≠ "Token is invalid or expired") ∧
    (validateTokenViaGraphAPI now token cache .noResponse
        = (.error ("Graph API validation failed: undefined undefined"), cache, true) ∧
      ("Graph API validation failed: undefined undefined") ≠ "Token is invalid or expired") ∧
    (∀ statusText, validateTokenViaGraphAPI now token cache (.httpError 401 statusText)
        = (.error ("Token is invalid or expired"), cache, true)) := by
  refine ⟨?_, ⟨?_, ?_⟩, ?_⟩
  · intro status statusText hne
    exact ⟨by simp [validateTokenViaGraphAPI, hmiss, hne], graphFail_ne_invalid _⟩
  · simp [validateTokenViaGraphAPI, hmiss]
  · decide
  · intro statusText
    simp [validateTokenViaGraphAPI, hmiss]

/-- Witness for C5: a 503 from Graph on an empty cache. -/
theorem upstream_failure_distinct_witness :
    validateTokenViaGraphAPI 0 ("tok") [] (.httpError 503 ("Service Unavailable"))
      = (.error ("Graph API validation failed: " ++
          (toString 503 ++ " " ++ "Service Unavailable")), [], true) :=
  ((upstream_failure_distinct 0 ("tok") [] (by decide)).1 503 ("Service Unavailable")
    (by decide)).1

/-- C7: with a cache miss, a first successful `validateTokenViaGraphAPI`
makes the one outbound call (third component `true`) and caches the
identity for the 5-minute TTL; a second call within the TTL returns the
cached identity with no outbound call (`false`), whatever the network
would have answered. -/
theorem token_cache_single_outbound (t₀ t₁ : Nat) (token : String) (c₀ : TokenCache)
    (p : GraphProfile) (net₂ : GraphOutcome)
    (hmiss : JsMap.get token c₀ = none) (hfresh : t₁ < t₀ + tokenCacheTTL) :
    validateTokenViaGraphAPI t₀ token c₀ (.ok p)
      = (.ok (mkGraphUser p), JsMap.set token ⟨mkGraphUser p, t₀ + tokenCacheTTL⟩ c₀, true) ∧
    validateTokenViaGraphAPI t₁ token
        (JsMap.set token ⟨mkGraphUser p, t₀ + tokenCacheTTL⟩ c₀) net₂
      = (.ok (mkGraphUser p), JsMap.set token ⟨mkGraphUser p, t₀ + tokenCacheTTL⟩ c₀, false) := by
  constructor
  · simp [validateTokenViaGraphAPI, hmiss]
  · simp [validateTokenViaGraphAPI, JsMap.get_set_self, hfresh]

/-- Witness for C7 on a concrete token and profile, second call 1 ms
later with the network down. -/
theorem token_cache_single_outbound_witness :
    validateTokenViaGraphAPI 1 ("tok")
        (JsMap.set ("tok") ⟨mkGraphUser ⟨"id1", "Ada", none, "ada@x"⟩, 0 + tokenCacheTTL⟩ [])
        .noResponse
      = (.ok (mkGraphUser ⟨"id1", "Ada", none, "ada@x"⟩),
         JsMap.set ("tok") ⟨mkGraphUser ⟨"id1", "Ada", none, "ada@x"⟩, 0 + tokenCacheTTL⟩ [],
         false) :=
  (token_cache_single_outbound 0 1 ("tok") [] ⟨"id1", "Ada", none, "ada@x"⟩ .noResponse
    (by decide) (by decide)).2

/-- C6: whenever the token exchange does not succeed — the authority came
back with an `error` parameter (no exchange is even attempted), or the
exchange fails or yields no access token — `/callback` renders an error
page (400 or 500) and the token store is left exactly as it was. -/
theorem callback_failure_no_record (q : CallbackQuery) (now : Nat) (sid : String)
    (exch : ExchangeOutcome) (pkce : PkceStore) (tokens : TokenStore) :
    (truthy q.error = true →
      handleCallback q now sid exch pkce tokens =
        { result := .authErrorPage ((q.error).getD (""))
            (orDefault q.error_description ("No description provided")),
          pkce := pkce, tokens := tokens, exchangeAttempted := false }) ∧
    (exchangeSucceeded exch = false →
      (handleCallback q now sid exch pkce tokens).tokens = tokens ∧
      ((handleCallback q now sid exch pkce tokens).result.status = 400 ∨
        (handleCallback q now sid exch pkce tokens).result.status = 500)) := by
  constructor
  · intro he
    simp [handleCallback, he]
  · intro hf
    by_cases he : truthy q.error
    · simp [handleCallback, he, CallbackResult.status]
    · by_cases hc : truthy q.code
      · by_cases hs : truthy q.state
        · rcases hr : resolveVerifier now q pkce with ⟨vopt, pkce'⟩
          by_cases hv : truthy vopt
          · cases exch with
            | failure msg => simp [handleCallback, he, hc, hs, hr, hv, CallbackResult.status]
            | success tok n =>
                have ht : truthy tok = false := by simpa [exchangeSucceeded] using hf
                simp [handleCallback, he, hc, hs, hr, hv, ht, CallbackResult.status]
          · simp [handleCallback, he, hc, hs, hr, hv, CallbackResult.status]
        · simp [handleCallback, he, hc, hs, CallbackResult.status]
      · simp [handleCallback, he, hc, CallbackResult.status]

/-- Witness for C6: an `error=access_denied` callback changes nothing,
and a failed exchange on a client-verifier callback stores no token. -/
theorem callback_failure_no_record_witness :
    handleCallback
        ⟨some ("c"), some ("st"), some ("access_denied"), none, none, none⟩ 0 ("sid")
        (.success (some ("tok")) 3600) [] [] =
      { result := .authErrorPage ("access_denied") ("No description provided"),
        pkce := [], tokens := [], exchangeAttempted := false } ∧
    (handleCallback ⟨some ("c"), some ("st"), none, none, some ("cv"), none⟩ 0 ("sid")
        (.failure ("boom")) [] []).tokens = ([] : TokenStore) := by
  constructor
  · exact (callback_failure_no_record
      ⟨some ("c"), some ("st"), some ("access_denied"), none, none, none⟩ 0 ("sid")
      (.success (some ("tok")) 3600) [] []).1 (by decide)
  · exact ((callback_failure_no_record
      ⟨some ("c"), some ("st"), none, none, some ("cv"), none⟩ 0 ("sid")
      (.failure ("boom")) [] []).2 (by decide)).1

/-- C10: `optionalAuth` never writes a response — it always calls
`next()` — and it attaches an identity only when the header is a Bearer
header whose token passed both structural validation and Graph
resolution. -/
theorem optionalAuth_never_rejects (cfg : Config) (authHeader : Option String)
    (dec : DecodeOutcome) (nowSec nowMs : Nat) (cache : TokenCache) (net : GraphOutcome) :
    (∀ resp, (optionalAuth cfg authHeader dec nowSec nowMs cache net).1 ≠ .respond resp) ∧
    (∀ au, (optionalAuth cfg authHeader dec nowSec nowMs cache net).1 = .next (some au) →
      ∃ h, authHeader = some h ∧ h.startsWith ("Bearer ") = true ∧
        validateTokenStructure cfg dec nowSec = .ok au.jwt ∧
        (validateTokenViaGraphAPI nowMs (h.drop 7) cache net).1 = .ok au.graph) := by
  constructor
  · intro resp
    cases authHeader with
    | none => simp [optionalAuth]
    | some h =>
        by_cases h0 : h = ""
        · simp [optionalAuth, h0]
        · by_cases hb : h.startsWith ("Bearer ") = true
          · cases hvs : validateTokenStructure cfg dec nowSec with
            | error msg => simp [optionalAuth, h0, hb, hvs]
            | ok jwtInfo =>
                rcases hg : validateTokenViaGraphAPI nowMs (h.drop 7) cache net with
                  ⟨res, cache', made⟩
                cases res with
                | ok user => simp [optionalAuth, h0, hb, hvs, hg]
                | error msg => simp [optionalAuth, h0, hb, hvs, hg]
          · simp [optionalAuth, h0, hb]
  · intro au hnext
    cases authHeader with
    | none => simp [optionalAuth] at hnext
    | some h =>
        by_cases h0 : h = ""
        · simp [optionalAuth, h0] at hnext
        · by_cases hb : h.startsWith ("Bearer ") = true
          · cases hvs : validateTokenStructure cfg dec nowSec with
            | error msg => simp [optionalAuth, h0, hb, hvs] at hnext
            | ok jwtInfo =>
                rcases hg : validateTokenViaGraphAPI nowMs (h.drop 7) cache net with
                  ⟨res, cache', made⟩
                cases res with
                | ok user =>
                    rcases au with ⟨auJwt, auGraph⟩
                    have hinj : jwtInfo = auJwt ∧ user = auGraph := by
                      simpa [optionalAuth, h0, hb, hvs, hg] using hnext
                    obtain ⟨rfl, rfl⟩ := hinj
                    exact ⟨h, rfl, hb, by simp [hvs], by simp [hg]⟩
                | error msg => simp [optionalAuth, h0, hb, hvs, hg] at hnext
          · simp [optionalAuth, h0, hb] at hnext

/-- Witness for C10: a garbage token on a dead network still reaches
`next()` with no user attached. -/
theorem optionalAuth_never_rejects_witness :
    (optionalAuth sampleConfig (some ("Bearer garbage")) .invalid 0 0 [] .noResponse).1
      ≠ .respond (sendUnauthorized sampleConfig ("x")) :=
  (optionalAuth_never_rejects sampleConfig (some ("Bearer garbage")) .invalid 0 0 []
    .noResponse).1 (sendUnauthorized sampleConfig ("x"))

end MCPAuth
